import Mathlib

/-!
Verification of the Freemail temporary-mailbox client
(`src/core/freemail_client.py`) against its natural-language
specification.

The Python module is shallowly embedded here:

* JSON values are the inductive `Json`; Python truthiness of JSON values
  is `Json.truthy` (a Python value that may also be `None` is an
  `Option Json`, with `none` for `None`).
* A single outbound HTTP call made through `FreemailClient._request` is
  represented by its outcome, `Except PyErr HttpResponse`: `.error`
  models the transport exception that `_request` re-raises, and the
  `Body` of a response distinguishes empty content (`res.content`
  falsy), a body whose `res.json()` raises, and a parsed JSON value.
* Python exception flow inside a method is modelled with
  `Except PyErr`; a `try/except` that swallows everything is a `match`
  that maps `.error` to the method's "no result" value.  Every public
  method is given the top-level type `Except PyErr _` so that "this
  method never raises to its caller" is the statement that it always
  returns `.ok`.
* `datetime` values (both `since_time` and parsed message timestamps)
  are naive local wall-clock instants, encoded as `Int` seconds since
  1970-01-01 00:00:00 (wall clock).  The host's local timezone is a
  fixed offset `tz : Int` in seconds (DST variation is out of scope).
  `datetime.fromisoformat` is modelled on the documented core grammar
  `YYYY-MM-DD[<sep>HH[:MM[:SS]]][±HH:MM]` (fractional seconds and
  other extensions are out of the modelled subset).
* The external collaborator `core.mail_utils.extract_verification_code`
  (not part of this repository's source tree) is an arbitrary function
  parameter `extract : String → Option String`, with `none` for Python
  `None`; Python truthiness of its result is `truthyStr`.
* `time.sleep` and the log callback are effect-free here: the model
  counts sleeps and records log messages instead.  `_log` swallows any
  callback exception, so logging never alters control flow; the HTTP
  trace lines emitted inside `_request` are not recorded, and runtime
  values interpolated into success-path f-strings are elided (no claim
  depends on them; the failure-path messages the claims distinguish are
  recorded verbatim).
-/

namespace Freemail

/-- JSON values, as produced by `res.json()`.  Numbers are modelled as
integers (the server's timestamps and the claims use integral values
only). -/
inductive Json where
  | null : Json
  | bool : Bool → Json
  | num : Int → Json
  | str : String → Json
  | arr : List Json → Json
  | obj : List (String × Json) → Json
deriving Repr

/-- Python truthiness of a JSON value (`None`, `False`, `0`, `""`,
`[]`, `{}` are falsy). -/
def Json.truthy : Json → Bool
  | .null => false
  | .bool b => b
  | .num n => n != 0
  | .str s => s != ""
  | .arr xs => !xs.isEmpty
  | .obj fs => !fs.isEmpty

/-- Truthiness of a Python value that is a JSON value or `None`. -/
def truthyOpt : Option Json → Bool
  | none => false
  | some j => j.truthy

/-- Truthiness of a Python value that is a string or `None` (the type
of `extract_verification_code`'s result and of `fetch` results: both
`None` and `""` are falsy). -/
def truthyStr : Option String → Bool
  | none => false
  | some s => s != ""

/-- Python exceptions that the embedded code can raise. -/
inductive PyErr where
  | network : PyErr
  | jsonDecode : PyErr
  | attributeError : PyErr
  | typeError : PyErr
  | zeroDivision : PyErr
  | valueError : PyErr
deriving Repr, DecidableEq

/-- The string interpolated by `f"... failed: {e}"`. -/
def PyErr.msg : PyErr → String
  | .network => "network error"
  | .jsonDecode => "json decode error"
  | .attributeError => "attribute error"
  | .typeError => "type error"
  | .zeroDivision => "division by zero"
  | .valueError => "value error"

/-- The body of an HTTP response: `empty` when `res.content` is falsy,
`malformed` when `res.json()` raises, `json j` when it parses to `j`. -/
inductive Body where
  | empty : Body
  | malformed : Body
  | json : Json → Body
deriving Repr

/-- An HTTP response as consumed by the client: status code plus body. -/
structure HttpResponse where
  status : Nat
  body : Body
deriving Repr

/-- The outcome of a `_request` call: `.error` models the transport
exception that `_request` logs and re-raises (line 58). -/
abbrev RequestResult := Except PyErr HttpResponse

/-- Models `res.json() if res.content else default`: empty content yields the
caller's default, a malformed body raises, otherwise the parsed value. -/
def resJson (res : HttpResponse) (default : Json) : Except PyErr Json :=
  match res.body with
  | .empty => .ok default
  | .malformed => .error .jsonDecode
  | .json j => .ok j

/-- Models `data.get(key)`: `None` when absent; raises `AttributeError` when
`data` is not a dict.  `json.loads` keeps the last duplicate key, hence
the reversed lookup. -/
def getField (data : Json) (key : String) : Except PyErr (Option Json) :=
  match data with
  | .obj fs => .ok (fs.reverse.lookup key)
  | _ => .error .attributeError

/-! ### Timestamps (lines 143-154)

`since_time` and parsed message times are naive local datetimes, encoded
as `Int` wall-clock seconds since 1970-01-01 00:00:00; `tz : Int` is the
host's fixed local UTC offset in seconds. -/

/-- Value of a decimal digit character. -/
def digitVal? (c : Char) : Option Nat :=
  if c.isDigit then some (c.toNat - 48) else none

/-- Two decimal digits, returning the value and what remains. -/
def parseDigits2 : List Char → Option (Nat × List Char)
  | a :: b :: rest =>
    match digitVal? a, digitVal? b with
    | some x, some y => some (x * 10 + y, rest)
    | _, _ => none
  | _ => none

/-- Four decimal digits, returning the value and what remains. -/
def parseDigits4 : List Char → Option (Nat × List Char)
  | a :: b :: c :: d :: rest =>
    match digitVal? a, digitVal? b, digitVal? c, digitVal? d with
    | some x, some y, some z, some w => some (((x * 10 + y) * 10 + z) * 10 + w, rest)
    | _, _, _, _ => none
  | _ => none

/-- Gregorian leap year. -/
def isLeap (y : Int) : Bool :=
  (y % 4 == 0 && y % 100 != 0) || (y % 400 == 0)

/-- Days in a month of the proleptic Gregorian calendar. -/
def daysInMonth (y : Int) (m : Nat) : Nat :=
  match m with
  | 1 => 31 | 2 => if isLeap y then 29 else 28 | 3 => 31
  | 4 => 30 | 5 => 31 | 6 => 30 | 7 => 31 | 8 => 31
  | 9 => 30 | 10 => 31 | 11 => 30 | 12 => 31
  | _ => 0

/-- Days from 1970-01-01 to the given civil date (can be negative). -/
def daysFromCivil (y : Int) (m d : Nat) : Int :=
  let y' : Int := if m ≤ 2 then y - 1 else y
  let era : Int := Int.fdiv y' 400
  let yoe : Int := y' - era * 400
  let doy : Nat := (153 * (if 2 < m then m - 3 else m + 9) + 2) / 5 + d - 1
  let doe : Int := yoe * 365 + Int.fdiv yoe 4 - Int.fdiv yoe 100 + (doy : Int)
  era * 146097 + doe - 719468

/-- Time-of-day part `HH[:MM[:SS]]`, in seconds, plus what remains. -/
def parseTimeOfDay (cs : List Char) : Option (Nat × List Char) := do
  let (h, r1) ← parseDigits2 cs
  guard (h ≤ 23)
  match r1 with
  | ':' :: r2 =>
    let (mi, r3) ← parseDigits2 r2
    guard (mi ≤ 59)
    match r3 with
    | ':' :: r4 =>
      let (s, r5) ← parseDigits2 r4
      guard (s ≤ 59)
      pure (h * 3600 + mi * 60 + s, r5)
    | _ => pure (h * 3600 + mi * 60, r3)
  | _ => pure (h * 3600, r1)

/-- Fixed-offset suffix `±HH:MM`, in signed seconds; it must consume the
whole remainder of the string. -/
def parseOffsetSuffix (cs : List Char) : Option Int := do
  match cs with
  | sign :: r1 =>
    let sgn : Int ← if sign = '+' then some 1 else if sign = '-' then some (-1) else none
    let (oh, r2) ← parseDigits2 r1
    guard (oh ≤ 23)
    match r2 with
    | ':' :: r3 =>
      let (om, r4) ← parseDigits2 r3
      guard (om ≤ 59)
      guard (r4 = [])
      pure (sgn * ((oh : Int) * 3600 + (om : Int) * 60))
    | _ => none
  | [] => none

/-- Models `datetime.fromisoformat` on the documented core grammar
`YYYY-MM-DD[<any single char>HH[:MM[:SS]]][±HH:MM]` (the subset this
client's server traffic uses; fractional seconds are out of the
modelled subset).  Returns the wall-clock seconds stated by the string
together with its UTC offset when one is present. -/
def fromisoformat (s : String) : Option (Int × Option Int) := do
  let cs := s.toList
  let (y, r1) ← parseDigits4 cs
  guard (1 ≤ y)
  match r1 with
  | '-' :: r2 =>
    let (mo, r3) ← parseDigits2 r2
    guard (1 ≤ mo && mo ≤ 12)
    match r3 with
    | '-' :: r4 =>
      let (d, r5) ← parseDigits2 r4
      guard (1 ≤ d && d ≤ daysInMonth (y : Int) mo)
      let dateSec : Int := daysFromCivil (y : Int) mo d * 86400
      match r5 with
      | [] => pure (dateSec, none)
      | _sep :: r6 =>
        let (tod, r7) ← parseTimeOfDay r6
        let naive := dateSec + (tod : Int)
        match r7 with
        | [] => pure (naive, none)
        | _ => do
          let off ← parseOffsetSuffix r7
          pure (naive, some off)
    | _ => none
  | _ => none

/-- Models `datetime.fromtimestamp(e)` as a naive local datetime: shifts the
epoch into local wall-clock seconds.  Outside the platform's
representable range (years 1..9999) the call raises, modelled as
`none`. -/
def fromtimestampNaive (tz : Int) (e : Int) : Option Int :=
  if -62135596800 ≤ e ∧ e ≤ 253402300799 then some (e + tz) else none

/-- Models `created_at.replace("Z", "+00:00")`: every occurrence of the
single character `Z` is replaced. -/
def replaceZChars : List Char → List Char
  | [] => []
  | c :: rest =>
    if c = 'Z' then '+' :: '0' :: '0' :: ':' :: '0' :: '0' :: replaceZChars rest
    else c :: replaceZChars rest

/-- Line 149: `datetime.fromisoformat(created_at.replace("Z",
"+00:00")).astimezone().replace(tzinfo=None)`.  An aware string is
converted to the local wall clock; a naive string is assumed local by
`astimezone()` and comes back unchanged.  `none` models the parse
exception. -/
def isoToLocalNaive (tz : Int) (s : String) : Option Int :=
  match fromisoformat (String.mk (replaceZChars s.toList)) with
  | some (n, some off) => some (n - off + tz)
  | some (n, none) => some n
  | none => none

/-- Lines 146-149: parse a truthy `created_at` into a naive local
datetime.  `bool` counts as numeric because Python's `bool` is a
subclass of `int`; any other type fails (`.replace` on a non-string
raises, swallowed by the inner `except`). -/
def parseCreated (tz : Int) : Json → Option Int
  | .num e => fromtimestampNaive tz e
  | .bool b => fromtimestampNaive tz (if b then 1 else 0)
  | .str s => isoToLocalNaive tz s
  | _ => none

/-! ### `register_account` (lines 60-96)

The client's stored mailbox `self.email` is an `Option Json`: `none`
for the initial `None`, `some j` after an assignment (the code stores
whatever JSON value the chosen field held).  A method's interaction
with the server is its `_request` outcome, passed in as a
`RequestResult`. -/

/-- A log line: level and message, as passed to `self._log`. -/
abbrev LogLine := String × String

/-- Result of `register_account`: the stored mailbox afterwards, the
returned boolean, and the log trace. -/
structure RegisterResult where
  email : Option Json
  ok : Bool
  logs : List LogLine
deriving Repr

/-- Python `a or b` for values that are JSON-or-`None`: the first
operand when truthy, otherwise the second operand (line 79). -/
def pyOr (a b : Option Json) : Option Json :=
  if truthyOpt a then a else b

/-- Lines 64-68: the first log line of `register_account`. -/
def registerLog0 (domain : Option String) : LogLine :=
  if truthyStr domain then
    ("info", "Freemail generating mailbox with domain: " ++ domain.getD "")
  else
    ("info", "Freemail generating mailbox (auto-select domain)")

/-- The `try` block of `register_account` (lines 62-92): log trace so
far, paired with either the raised exception or the new stored mailbox
and return value. -/
def registerTry (oldEmail : Option Json) (domain : Option String)
    (resp : RequestResult) : List LogLine × Except PyErr (Option Json × Bool) :=
  let l0 : LogLine := registerLog0 domain
  match resp with
  | .error e => ([l0], .error e)
  | .ok res =>
    if res.status = 200 ∨ res.status = 201 then
      match resJson res (.obj []) with
      | .error e => ([l0], .error e)
      | .ok data =>
        match getField data "email" with
        | .error e => ([l0], .error e)
        | .ok e1 =>
          if truthyOpt e1 then
            ([l0, ("info", "Freemail mailbox created")], .ok (e1, true))
          else
            match getField data "mailbox" with
            | .error e => ([l0], .error e)
            | .ok e2 =>
              if truthyOpt e2 then
                ([l0, ("info", "Freemail mailbox created")], .ok (e2, true))
              else
                ([l0, ("error", "Freemail response missing email field")],
                  .ok (oldEmail, false))
    else if res.status = 401 ∨ res.status = 403 then
      ([l0, ("error", "Freemail authentication failed (invalid JWT token)")],
        .ok (oldEmail, false))
    else
      ([l0, ("error", "Freemail generate failed: " ++ toString res.status)],
        .ok (oldEmail, false))

/-- Method `register_account` (lines 60-96): the `try` body with the blanket
`except` of lines 94-96.  The top-level `Except` records whether the
call raises to its caller (it never does: the handler catches
everything). -/
def register_account (oldEmail : Option Json) (domain : Option String)
    (resp : RequestResult) : Except PyErr RegisterResult :=
  match registerTry oldEmail domain resp with
  | (logs, .ok (em, b)) => .ok ⟨em, b, logs⟩
  | (logs, .error e) =>
    .ok ⟨oldEmail, false, logs ++ [("error", "Freemail register failed: " ++ e.msg)]⟩

/-- Method `login` (lines 98-100). -/
def login : Except PyErr Bool := .ok true

/-- Method `set_credentials` (lines 30-32): returns the new stored mailbox. -/
def set_credentials (email : String) (_password : Option String) :
    Except PyErr (Option Json) := .ok (some (.str email))

/-! ### `fetch_verification_code` (lines 102-172) -/

/-- Lines 140-154, the `since_time` filter for one message: `.ok true`
means the message is skipped (`continue`).  Raises only when the
message is not a dict; a timestamp parse failure is swallowed by the
inner `except ... pass` and the message is kept. -/
def skipMessage (tz : Int) (since : Option Int) (msg : Json) :
    Except PyErr Bool :=
  match since with
  | none => .ok false
  | some T =>
    match getField msg "created_at" with
    | .error e => .error e
    | .ok none => .ok false
    | .ok (some ca) =>
      if ca.truthy then
        match parseCreated tz ca with
        | some t => .ok (decide (t < T))
        | none => .ok false
      else .ok false

/-- Lines 157-160: `email_data.get(key) or ""` — the field's value when
truthy, `""` otherwise; raises when the message is not a dict. -/
def fieldOrEmpty (msg : Json) (key : String) : Except PyErr Json :=
  match getField msg key with
  | .error e => .error e
  | .ok (some j) => .ok (if j.truthy then j else .str "")
  | .ok none => .ok (.str "")

/-- String concatenation of line 162 demands an actual string; a truthy
non-string field makes `+` raise `TypeError`. -/
def asStr : Json → Except PyErr String
  | .str s => .ok s
  | _ => .error .typeError

/-- Lines 156-162: fetch the four fields (content, subject, html,
preview, in source order), then evaluate the space-joined
`subject + " " + content + " " + html_content + " " + preview`. -/
def buildBlob (msg : Json) : Except PyErr String :=
  match fieldOrEmpty msg "content" with
  | .error e => .error e
  | .ok content =>
    match fieldOrEmpty msg "subject" with
    | .error e => .error e
    | .ok subject =>
      match fieldOrEmpty msg "html_content" with
      | .error e => .error e
      | .ok html =>
        match fieldOrEmpty msg "preview" with
        | .error e => .error e
        | .ok preview =>
          match asStr subject with
          | .error e => .error e
          | .ok s =>
            match asStr content with
            | .error e => .error e
            | .ok c =>
              match asStr html with
              | .error e => .error e
              | .ok h =>
                match asStr preview with
                | .error e => .error e
                | .ok p => .ok (s ++ " " ++ c ++ " " ++ h ++ " " ++ p)

/-- Lines 138-168: the message loop — filter, build the blob, extract,
and return the first truthy code. -/
def scanEmails (tz : Int) (since : Option Int)
    (extract : String → Option String) : List Json → Except PyErr (Option String)
  | [] => .ok none
  | m :: rest =>
    match skipMessage tz since m with
    | .error e => .error e
    | .ok true => scanEmails tz since extract rest
    | .ok false =>
      match buildBlob m with
      | .error e => .error e
      | .ok blob =>
        let code := extract blob
        if truthyStr code then .ok code else scanEmails tz since extract rest

/-- The `try` block of `fetch_verification_code` (lines 108-168),
given the `_request` outcome. -/
def fetchTry (tz : Int) (since : Option Int) (extract : String → Option String)
    (resp : RequestResult) : Except PyErr (Option String) :=
  match resp with
  | .error e => .error e
  | .ok res =>
    if res.status = 401 ∨ res.status = 403 then .ok none
    else if res.status ≠ 200 then .ok none
    else
      match resJson res (.arr []) with
      | .error e => .error e
      | .ok (.arr ms) =>
        if ms.isEmpty then .ok none else scanEmails tz since extract ms
      | .ok _ => .ok none

/-- Result of `fetch_verification_code`: the returned code and whether
an HTTP request was issued at all. -/
structure FetchResult where
  code : Option String
  requested : Bool
deriving Repr

/-- Method `fetch_verification_code` (lines 102-172): the mailbox precondition
of lines 104-106 runs before the `try`, and the blanket `except` of
lines 170-172 maps any raised exception to `None`. -/
def fetch_verification_code (email : Option Json) (since : Option Int)
    (tz : Int) (extract : String → Option String) (resp : RequestResult) :
    Except PyErr FetchResult :=
  if ¬ truthyOpt email then .ok ⟨none, false⟩
  else
    match fetchTry tz since extract resp with
    | .ok c => .ok ⟨c, true⟩
    | .error _ => .ok ⟨none, true⟩

/-! ### `poll_for_code` (lines 174-192) -/

/-- The `for i in range(1, max_retries + 1)` loop: `r` is the number of
iterations left, `i` the 1-based attempt index, `fc`/`sc` the fetch and
sleep counts so far.  `fetch i` is attempt `i`'s
`fetch_verification_code` result; `time.sleep` runs only while
`i < max_retries` and raises `ValueError` on a negative interval. -/
def pollLoop (fetch : Nat → Option String) (interval : Int) :
    Nat → Nat → Nat → Nat → Except PyErr (Option String × Nat × Nat)
  | 0, _, fc, sc => .ok (none, fc, sc)
  | r + 1, i, fc, sc =>
    let code := fetch i
    if truthyStr code then .ok (code, fc + 1, sc)
    else if r = 0 then .ok (none, fc + 1, sc)
    else if interval < 0 then .error .valueError
    else pollLoop fetch interval r (i + 1) (fc + 1) (sc + 1)

/-- Method `poll_for_code` (lines 174-192): `max_retries = timeout // interval`
is Python floor division and raises `ZeroDivisionError` when `interval`
is `0`.  There is no `try/except` in this method.  Returns the code
along with how many fetches and sleeps happened. -/
def poll_for_code (timeout interval : Int) (fetch : Nat → Option String) :
    Except PyErr (Option String × Nat × Nat) :=
  if interval = 0 then .error .zeroDivision
  else pollLoop fetch interval (Int.fdiv timeout interval).toNat 1 0 0

/-! ### `_get_domain` (lines 194-209) -/

/-- The `try` block of `_get_domain` (lines 196-206): `some x` for
`return domains[0]`, `none` when control falls through to line 209. -/
def getDomainTry (resp : RequestResult) : Except PyErr (Option Json) :=
  match resp with
  | .error e => .error e
  | .ok res =>
    if res.status = 200 then
      match resJson res (.arr []) with
      | .error e => .error e
      | .ok (.arr (x :: _)) => .ok (some x)
      | .ok _ => .ok none
    else .ok none

/-- Method `_get_domain` (lines 194-209): any exception or fall-through yields
`""`. -/
def _get_domain (resp : RequestResult) : Except PyErr Json :=
  match getDomainTry resp with
  | .ok (some x) => .ok x
  | _ => .ok (.str "")

/-! ### Helper lemmas -/

/-- While the interval is non-negative, `pollLoop` never raises. -/
lemma pollLoop_ok (fetch : Nat → Option String) (interval : Int)
    (hint : 0 ≤ interval) :
    ∀ r i fc sc, ∃ v, pollLoop fetch interval r i fc sc = .ok v := by
  intro r
  induction r with
  | zero => intro i fc sc; exact ⟨_, rfl⟩
  | succ r ih =>
    intro i fc sc
    rw [pollLoop]
    by_cases hc : truthyStr (fetch i) = true
    · exact ⟨_, by rw [if_pos hc]⟩
    · rw [if_neg hc]
      by_cases hr : r = 0
      · exact ⟨_, by rw [if_pos hr]⟩
      · rw [if_neg hr, if_neg (by omega)]
        exact ih (i + 1) (fc + 1) (sc + 1)

/-- When every remaining attempt yields `None`, `pollLoop` runs them
all, sleeping after each attempt but the last. -/
lemma pollLoop_all_none (fetch : Nat → Option String) (interval : Int)
    (hint : 0 ≤ interval) :
    ∀ r i fc sc, (∀ j, i ≤ j → j < i + r → fetch j = none) →
      pollLoop fetch interval r i fc sc = .ok (none, fc + r, sc + (r - 1)) := by
  intro r
  induction r with
  | zero => intro i fc sc _; rfl
  | succ r ih =>
    intro i fc sc hnone
    have hi : fetch i = none := hnone i le_rfl (by omega)
    rw [pollLoop, hi]
    rw [if_neg (by decide : ¬ (truthyStr none = true))]
    by_cases hr : r = 0
    · subst hr; rfl
    · rw [if_neg hr, if_neg (by omega : ¬ interval < 0)]
      rw [ih (i + 1) (fc + 1) (sc + 1) (fun j h1 h2 => hnone j (by omega) (by omega))]
      simp only [Except.ok.injEq, Prod.mk.injEq]
      exact ⟨trivial, by omega, by omega⟩

/-- When attempt `i + k` is the first to yield a truthy code,
`pollLoop` stops there: `k + 1` fetches and `k` sleeps from this
state on. -/
lemma pollLoop_first_code (fetch : Nat → Option String) (interval : Int)
    (hint : 0 ≤ interval) (c : String) (hc : c ≠ "") :
    ∀ k r i fc sc, k < r → (∀ j, i ≤ j → j < i + k → fetch j = none) →
      fetch (i + k) = some c →
      pollLoop fetch interval r i fc sc = .ok (some c, fc + k + 1, sc + k) := by
  intro k
  induction k with
  | zero =>
    intro r i fc sc hkr _ hk
    obtain ⟨r', rfl⟩ : ∃ r', r = r' + 1 := ⟨r - 1, by omega⟩
    rw [pollLoop]
    have hfi : fetch i = some c := by simpa using hk
    rw [hfi, if_pos (by simp [truthyStr, hc])]
    rfl
  | succ k ih =>
    intro r i fc sc hkr hnone hk
    obtain ⟨r', rfl⟩ : ∃ r', r = r' + 1 := ⟨r - 1, by omega⟩
    rw [pollLoop, hnone i le_rfl (by omega)]
    rw [if_neg (by decide : ¬ (truthyStr none = true))]
    rw [if_neg (by omega : ¬ r' = 0), if_neg (by omega : ¬ interval < 0)]
    rw [ih r' (i + 1) (fc + 1) (sc + 1) (by omega)
      (fun j h1 h2 => hnone j (by omega) (by omega)) (by rw [← hk]; congr 1; omega)]
    simp only [Except.ok.injEq, Prod.mk.injEq]
    exact ⟨trivial, by omega, by omega⟩

/-- If the `try` block of `register_account` completes with `False`,
the stored mailbox it reports is the old one. -/
lemma registerTry_ok_false (oldEmail : Option Json) (domain : Option String)
    (resp : RequestResult) (logs : List LogLine) (em : Option Json)
    (h : registerTry oldEmail domain resp = (logs, .ok (em, false))) :
    em = oldEmail := by
  unfold registerTry at h
  rcases resp with e | ⟨st, bd⟩
  · simp at h
  · dsimp only at h
    by_cases hs : st = 200 ∨ st = 201
    · rw [if_pos hs] at h
      rcases bd with _ | _ | j
      · simp [resJson, getField, truthyOpt] at h
        exact h.2.symm
      · simp [resJson] at h
      · rcases j with _ | b | n | s | xs | fs
        · simp [resJson, getField] at h
        · simp [resJson, getField] at h
        · simp [resJson, getField] at h
        · simp [resJson, getField] at h
        · simp [resJson, getField] at h
        · by_cases h1 : truthyOpt (fs.reverse.lookup "email") <;>
            by_cases h2 : truthyOpt (fs.reverse.lookup "mailbox") <;>
            simp [resJson, getField, h1, h2] at h
          exact h.2.symm
    · rw [if_neg hs] at h
      by_cases ha : st = 401 ∨ st = 403 <;> simp [ha] at h
      · exact h.2.symm
      · exact h.2.symm

/-! ### Spec-side description of the message scan (for the refinement
claim about `fetch_verification_code`'s extraction order) -/

/-- From the spec's words: a message field read as text — its string
value when the field holds a non-empty string, `""` otherwise. -/
def specField (msg : Json) (key : String) : String :=
  match msg with
  | .obj fs =>
    match fs.reverse.lookup key with
    | some (.str s) => s
    | _ => ""
  | _ => ""

/-- From the spec's words: "the space-joined concatenation of subject,
text body, HTML body, and preview in that order". -/
def specBlob (msg : Json) : String :=
  specField msg "subject" ++ " " ++ specField msg "content" ++ " " ++
    specField msg "html_content" ++ " " ++ specField msg "preview"

/-- From the spec's words: "the first non-empty extracted code in
message iteration order; if no message yields a code, none". -/
def specFirstCode (extract : String → Option String) : List Json → Option String
  | [] => none
  | m :: rest =>
    let c := extract (specBlob m)
    if truthyStr c then c else specFirstCode extract rest

/-- The value line 157-160 binds for one field of a JSON-object
message (folded form, for rewriting). -/
def fieldVal (fs : List (String × Json)) (key : String) : Json :=
  match fs.reverse.lookup key with
  | some j => if j.truthy then j else .str ""
  | none => .str ""

/-- On a JSON object, `email_data.get(key) or ""` evaluates without
raising, to `fieldVal`. -/
lemma fieldOrEmpty_obj (fs : List (String × Json)) (key : String) :
    fieldOrEmpty (.obj fs) key = .ok (fieldVal fs key) := by
  unfold fieldOrEmpty getField fieldVal
  dsimp only
  rcases hl : fs.reverse.lookup key with _ | j <;> rfl

/-- When the concatenation of line 162 accepts a field's value, that
value is the field's text in the spec's sense. -/
lemma asStr_fieldVal (fs : List (String × Json)) (key : String) (s : String)
    (h : asStr (fieldVal fs key) = .ok s) :
    s = specField (.obj fs) key := by
  have hspec : specField (.obj fs) key =
      (match fs.reverse.lookup key with
       | some (Json.str s') => s'
       | _ => "") := rfl
  rw [hspec]
  unfold fieldVal at h
  rcases hl : fs.reverse.lookup key with _ | j
  · rw [hl] at h
    simp_all [asStr]
  · rw [hl] at h
    rcases j with _ | b | n | s' | xs | fs' <;>
      dsimp only at h <;> simp only [Json.truthy] at h <;>
      split_ifs at h <;> simp_all [asStr]

/-- Whenever the code's blob construction succeeds, its result is the
spec's blob. -/
lemma buildBlob_ok_eq (m : Json) (b : String) (h : buildBlob m = .ok b) :
    b = specBlob m := by
  rcases m with _ | b' | n | s | xs | fs
  case obj =>
    unfold buildBlob at h
    rw [fieldOrEmpty_obj, fieldOrEmpty_obj, fieldOrEmpty_obj, fieldOrEmpty_obj] at h
    dsimp only at h
    rcases h1 : asStr (fieldVal fs "subject") with e | s1 <;> rw [h1] at h
    · simp at h
    rcases h2 : asStr (fieldVal fs "content") with e | s2 <;> rw [h2] at h
    · simp at h
    rcases h3 : asStr (fieldVal fs "html_content") with e | s3 <;> rw [h3] at h
    · simp at h
    rcases h4 : asStr (fieldVal fs "preview") with e | s4 <;> rw [h4] at h
    · simp at h
    simp only [Except.ok.injEq] at h
    rw [← h, specBlob, asStr_fieldVal fs "subject" s1 h1,
      asStr_fieldVal fs "content" s2 h2, asStr_fieldVal fs "html_content" s3 h3,
      asStr_fieldVal fs "preview" s4 h4]
  all_goals simp [buildBlob, fieldOrEmpty, getField] at h

/-- With no `since_time`, the scan returns exactly the spec's first
code, provided every message's blob construction succeeds. -/
lemma scanEmails_no_since (tz : Int) (extract : String → Option String)
    (msgs : List Json) (hok : ∀ m ∈ msgs, ∃ b, buildBlob m = .ok b) :
    scanEmails tz none extract msgs = .ok (specFirstCode extract msgs) := by
  induction msgs with
  | nil => rfl
  | cons m rest ih =>
    obtain ⟨b, hb⟩ := hok m (List.mem_cons_self m rest)
    have hbs : b = specBlob m := buildBlob_ok_eq m b hb
    show (match skipMessage tz none m with
      | Except.error e => Except.error e
      | Except.ok true => scanEmails tz none extract rest
      | Except.ok false =>
        match buildBlob m with
        | Except.error e => Except.error e
        | Except.ok blob =>
          let code := extract blob
          if truthyStr code then Except.ok code
          else scanEmails tz none extract rest) = _
    rw [show skipMessage tz none m = .ok false from rfl, hb, hbs]
    rw [specFirstCode]
    by_cases ht : truthyStr (extract (specBlob m))
    · simp only [ht, if_true]
    · simp only [ht, if_false, Bool.false_eq_true]
      exact ih (fun m' hm' => hok m' (List.mem_cons_of_mem m hm'))

/-! ### Claim theorems -/

/-- C2: `poll_for_code` performs exactly `floor(timeout / interval)`
calls to `fetch_verification_code` when every call returns `None`,
sleeping between consecutive attempts but not after the last one, and
returns the first non-empty code immediately — `k` fetches and `k - 1`
sleeps when attempt `k` is the first to yield a code; when no attempt
yields a code it returns `None`.  (`0 < interval` keeps the floor
defined; `0 ≤ timeout` makes `toNat` agree with the claim's floor, as
the third conjunct records.) -/
theorem poll_for_code_attempt_schedule (timeout interval : Int)
    (fetch : Nat → Option String) (hpos : 0 < interval) (ht : 0 ≤ timeout) :
    ((∀ i, 1 ≤ i → i ≤ (Int.fdiv timeout interval).toNat → fetch i = none) →
      poll_for_code timeout interval fetch =
        .ok (none, (Int.fdiv timeout interval).toNat,
          (Int.fdiv timeout interval).toNat - 1)) ∧
    (∀ k c, 1 ≤ k → k ≤ (Int.fdiv timeout interval).toNat →
      (∀ i, 1 ≤ i → i < k → fetch i = none) → fetch k = some c → c ≠ "" →
      poll_for_code timeout interval fetch = .ok (some c, k, k - 1)) ∧
    ((Int.fdiv timeout interval).toNat : Int) = Int.fdiv timeout interval := by
  refine ⟨?_, ?_, ?_⟩
  · intro hnone
    rw [poll_for_code, if_neg (by omega)]
    rw [pollLoop_all_none fetch interval (by omega) _ 1 0 0
      (fun j h1 h2 => hnone j h1 (by omega))]
    simp
  · intro k c hk1 hkn hprev hc hne
    rw [poll_for_code, if_neg (by omega)]
    rw [pollLoop_first_code fetch interval (by omega) c hne (k - 1) _ 1 0 0
      (by omega) (fun j h1 h2 => hprev j h1 (by omega))
      (by rw [show 1 + (k - 1) = k by omega, hc])]
    simp only [Except.ok.injEq, Prod.mk.injEq]
    exact ⟨trivial, by omega, by omega⟩
  · exact Int.toNat_of_nonneg (Int.fdiv_nonneg ht (by omega))

/-- C2 witness: with the spec's example `timeout=12, interval=4` and
all attempts returning `None`, exactly 3 fetches and 2 sleeps happen;
with the second attempt yielding `"123456"`, 2 fetches and 1 sleep. -/
theorem poll_for_code_attempt_schedule_witness :
    (0 : Int) < 4 ∧ (0 : Int) ≤ 12 ∧
    poll_for_code 12 4 (fun _ => none) = .ok (none, 3, 2) ∧
    poll_for_code 12 4 (fun i => if i = 2 then some "123456" else none) =
      .ok (some "123456", 2, 1) := by
  refine ⟨by decide, by decide, ?_, ?_⟩
  · exact (poll_for_code_attempt_schedule 12 4 (fun _ => none) (by decide)
      (by decide)).1 (fun i h1 h2 => rfl)
  · exact (poll_for_code_attempt_schedule 12 4
      (fun i => if i = 2 then some "123456" else none) (by decide) (by decide)).2.1
      2 "123456" (by decide) (by decide)
      (fun i h1 h2 => by interval_cases i; rfl) rfl (by decide)

/-- C5 counterexample: `poll_for_code` is called with `interval = 0`
(and the default `timeout = 120`): `timeout // interval` raises
`ZeroDivisionError` to the caller, so the claim that every method but
`_request` degrades to a no-result value for any inputs — zero interval
included — is false. -/
theorem poll_for_code_zero_interval_raises :
    poll_for_code 120 0 (fun _ => none) = .error .zeroDivision := rfl

/-- C5 (amended): `register_account`, `fetch_verification_code`,
`login`, `set_credentials` and `_get_domain` catch all failures
internally and return their no-result values; only `_request` may
propagate an exception — except that `poll_for_code`, which has no
handler, raises `ZeroDivisionError` when `interval = 0`, and completes
without raising whenever `interval` is positive. -/
theorem methods_exception_policy (oldEmail email : Option Json)
    (domain : Option String) (since : Option Int) (tz : Int)
    (extract : String → Option String) (resp1 resp2 resp3 : RequestResult)
    (timeout interval : Int) (fetch : Nat → Option String)
    (hpos : 0 < interval) :
    (∃ r, register_account oldEmail domain resp1 = .ok r) ∧
    (∃ r, fetch_verification_code email since tz extract resp2 = .ok r) ∧
    (∃ v, _get_domain resp3 = .ok v) ∧
    login = .ok true ∧
    (∀ e pw, set_credentials e pw = .ok (some (.str e))) ∧
    (∃ v, poll_for_code timeout interval fetch = .ok v) := by
  refine ⟨?_, ?_, ?_, rfl, fun e pw => rfl, ?_⟩
  · rcases hr : registerTry oldEmail domain resp1 with ⟨logs, x⟩
    rcases x with e | ⟨em, b⟩
    · exact ⟨_, by unfold register_account; rw [hr]⟩
    · exact ⟨_, by unfold register_account; rw [hr]⟩
  · by_cases he : truthyOpt email
    · rcases hr : fetchTry tz since extract resp2 with e | c
      · exact ⟨_, by unfold fetch_verification_code; rw [if_neg (by simp [he]), hr]⟩
      · exact ⟨_, by unfold fetch_verification_code; rw [if_neg (by simp [he]), hr]⟩
    · exact ⟨_, by unfold fetch_verification_code; rw [if_pos he]⟩
  · rcases hr : getDomainTry resp3 with e | x
    · exact ⟨_, by unfold _get_domain; rw [hr]⟩
    · rcases x with _ | v
      · exact ⟨_, by unfold _get_domain; rw [hr]⟩
      · exact ⟨_, by unfold _get_domain; rw [hr]⟩
  · rw [poll_for_code, if_neg (by omega)]
    exact pollLoop_ok fetch interval (by omega) _ 1 0 0

/-- C5 witness: the amended policy at concrete inputs (a transport
error on each call, `timeout=12, interval=4`). -/
theorem methods_exception_policy_witness :
    (0 : Int) < 4 ∧
    ((∃ r, register_account none none (.error .network) = .ok r) ∧
     (∃ r, fetch_verification_code (some (.str "a@b")) none 0 (fun _ => none)
        (.error .network) = .ok r) ∧
     (∃ v, _get_domain (.error .network) = .ok v) ∧
     login = .ok true ∧
     (∀ e pw, set_credentials e pw = .ok (some (.str e))) ∧
     (∃ v, poll_for_code 12 4 (fun _ => none) = .ok v)) :=
  ⟨by decide, methods_exception_policy none (some (.str "a@b")) none none 0
    (fun _ => none) (.error .network) (.error .network) (.error .network)
    12 4 (fun _ => none) (by decide)⟩

/-- C1 counterexample: the HTTP 200 body `{"email": ""}` contains the
field `email`, yet `register_account` returns `False` and stores
nothing — line 79's `or` chain tests Python truthiness, not presence,
so the claim "contains field `email` or `mailbox` implies success with
that field's value stored" fails at a present-but-empty field. -/
theorem register_account_empty_email_field_fails :
    register_account none none (.ok ⟨200, .json (.obj [("email", .str "")])⟩) =
      .ok ⟨none, false,
        [("info", "Freemail generating mailbox (auto-select domain)"),
         ("error", "Freemail response missing email field")]⟩ := rfl

/-- C1 (amended): for every HTTP 200/201 response with a JSON object
body, `register_account` selects `data.get("email") or
data.get("mailbox")` — the `email` field when it is truthy (non-empty),
otherwise the `mailbox` field; when the selected value is truthy the
call returns `True` and stores exactly that value, and when neither
field is truthy the call is treated as failure and the stored mailbox
is untouched. -/
theorem register_account_stores_truthy_field (oldEmail : Option Json)
    (domain : Option String) (st : Nat) (fs : List (String × Json))
    (hst : st = 200 ∨ st = 201) :
    register_account oldEmail domain (.ok ⟨st, .json (.obj fs)⟩) =
      .ok ⟨if truthyOpt (pyOr (fs.reverse.lookup "email") (fs.reverse.lookup "mailbox"))
             then pyOr (fs.reverse.lookup "email") (fs.reverse.lookup "mailbox")
             else oldEmail,
           truthyOpt (pyOr (fs.reverse.lookup "email") (fs.reverse.lookup "mailbox")),
           [registerLog0 domain,
            if truthyOpt (pyOr (fs.reverse.lookup "email") (fs.reverse.lookup "mailbox"))
              then ("info", "Freemail mailbox created")
              else ("error", "Freemail response missing email field")]⟩ := by
  unfold register_account registerTry
  dsimp only
  rw [if_pos hst]
  by_cases h1 : truthyOpt (fs.reverse.lookup "email") <;>
    by_cases h2 : truthyOpt (fs.reverse.lookup "mailbox") <;>
    simp [resJson, getField, pyOr, h1, h2]

/-- C1 witness: `{"email": "e@x", "mailbox": "m@x"}` stores the `email`
field's value and succeeds. -/
theorem register_account_stores_truthy_field_witness :
    ((200 : Nat) = 200 ∨ (200 : Nat) = 201) ∧
    register_account none none
        (.ok ⟨200, .json (.obj [("email", .str "e@x"), ("mailbox", .str "m@x")])⟩) =
      .ok ⟨some (.str "e@x"), true,
        [("info", "Freemail generating mailbox (auto-select domain)"),
         ("info", "Freemail mailbox created")]⟩ := by
  refine ⟨Or.inl rfl, ?_⟩
  rw [register_account_stores_truthy_field none none 200
    [("email", .str "e@x"), ("mailbox", .str "m@x")] (Or.inl rfl)]
  rfl

/-- C6: `register_account` returns `False` without raising both when
HTTP 200/201 carries a JSON object containing neither `email` nor
`mailbox`, and on HTTP 401/403 — the latter logged with the distinct
authentication-failure message. -/
theorem register_account_failure_modes (oldEmail : Option Json)
    (domain : Option String) :
    (∀ st fs, (st = 200 ∨ st = 201) → fs.reverse.lookup "email" = none →
      fs.reverse.lookup "mailbox" = none →
      register_account oldEmail domain (.ok ⟨st, .json (.obj fs)⟩) =
        .ok ⟨oldEmail, false,
          [registerLog0 domain,
           ("error", "Freemail response missing email field")]⟩) ∧
    (∀ st bd, (st = 401 ∨ st = 403) →
      register_account oldEmail domain (.ok ⟨st, bd⟩) =
        .ok ⟨oldEmail, false,
          [registerLog0 domain,
           ("error", "Freemail authentication failed (invalid JWT token)")]⟩) := by
  constructor
  · intro st fs hst he hm
    unfold register_account registerTry
    dsimp only
    rw [if_pos hst]
    simp [resJson, getField, he, hm, truthyOpt]
  · intro st bd hst
    unfold register_account registerTry
    dsimp only
    rw [if_neg (by rcases hst with rfl | rfl <;> omega), if_pos hst]

/-- C6 witness: a 200 body `{"id": 7}` and a plain 403 both yield
`False` with the respective log lines. -/
theorem register_account_failure_modes_witness :
    (((200 : Nat) = 200 ∨ (200 : Nat) = 201) ∧
      ([("id", Json.num 7)].reverse.lookup "email" = none) ∧
      ([("id", Json.num 7)].reverse.lookup "mailbox" = none) ∧
      register_account none none (.ok ⟨200, .json (.obj [("id", .num 7)])⟩) =
        .ok ⟨none, false,
          [("info", "Freemail generating mailbox (auto-select domain)"),
           ("error", "Freemail response missing email field")]⟩) ∧
    (((403 : Nat) = 401 ∨ (403 : Nat) = 403) ∧
      register_account none none (.ok ⟨403, .empty⟩) =
        .ok ⟨none, false,
          [("info", "Freemail generating mailbox (auto-select domain)"),
           ("error", "Freemail authentication failed (invalid JWT token)")]⟩) := by
  constructor
  · refine ⟨Or.inl rfl, rfl, rfl, ?_⟩
    rw [(register_account_failure_modes none none).1 200 [("id", .num 7)]
      (Or.inl rfl) rfl rfl]
    rfl
  · refine ⟨Or.inr rfl, ?_⟩
    rw [(register_account_failure_modes none none).2 403 .empty (Or.inr rfl)]
    rfl

/-- C10: on every failing path of `register_account` — non-2xx status,
401/403, a body missing both address fields, or any internal
exception — the stored mailbox is unchanged; only the success path
mutates it. -/
theorem register_account_failure_frame (oldEmail : Option Json)
    (domain : Option String) (resp : RequestResult) (r : RegisterResult)
    (h : register_account oldEmail domain resp = .ok r) (hf : r.ok = false) :
    r.email = oldEmail := by
  unfold register_account at h
  rcases hr : registerTry oldEmail domain resp with ⟨logs, x⟩
  rw [hr] at h
  rcases x with e | ⟨em, b⟩
  · simp only [Except.ok.injEq] at h
    rw [← h]
  · simp only [Except.ok.injEq] at h
    subst h
    simp only at hf
    subst hf
    exact registerTry_ok_false oldEmail domain resp logs em hr

/-- C10 witness: a 500 response leaves a previously stored mailbox in
place. -/
theorem register_account_failure_frame_witness :
    (register_account (some (.str "old@x")) none (.ok ⟨500, .empty⟩) =
      .ok ⟨some (.str "old@x"), false,
        [("info", "Freemail generating mailbox (auto-select domain)"),
         ("error", "Freemail generate failed: 500")]⟩) ∧
    (RegisterResult.mk (some (.str "old@x")) false
        [("info", "Freemail generating mailbox (auto-select domain)"),
         ("error", "Freemail generate failed: 500")]).ok = false ∧
    (RegisterResult.mk (some (.str "old@x")) false
        [("info", "Freemail generating mailbox (auto-select domain)"),
         ("error", "Freemail generate failed: 500")]).email = some (.str "old@x") :=
  ⟨rfl, rfl, register_account_failure_frame (some (.str "old@x")) none
    (.ok ⟨500, .empty⟩) _ rfl rfl⟩

/-- C3 counterexample: a message with `created_at = 0` (epoch zero, a
parseable creation time strictly earlier than `since_time = 1000000`)
is NOT skipped — line 142's `if created_at:` tests truthiness, and `0`
is falsy, so the time filter never runs and the message is scanned. -/
theorem since_filter_epoch_zero_kept :
    parseCreated 0 (.num 0) = some 0 ∧ (0 : Int) < 1000000 ∧
    skipMessage 0 (some 1000000) (.obj [("created_at", .num 0)]) = .ok false :=
  ⟨by decide, by decide, rfl⟩

/-- C3 (amended): with `since_time` given, a message whose `created_at`
is truthy and parses to time `t` is skipped exactly when `t` is
strictly earlier than `since_time` (so `t` equal or later is scanned),
uniformly over the numeric-epoch and ISO-8601 representations that
`parseCreated` accepts; a message whose `created_at` is absent, falsy
(such as the number `0`), or unparseable is kept for scanning.
Skipping means the scan ignores the message; a kept message has its
blob extracted. -/
theorem since_filter_strict (tz T : Int) (fs : List (String × Json)) :
    (∀ j t, fs.reverse.lookup "created_at" = some j → j.truthy = true →
      parseCreated tz j = some t →
      skipMessage tz (some T) (.obj fs) = .ok (decide (t < T))) ∧
    (∀ j, fs.reverse.lookup "created_at" = some j → j.truthy = true →
      parseCreated tz j = none →
      skipMessage tz (some T) (.obj fs) = .ok false) ∧
    (fs.reverse.lookup "created_at" = none →
      skipMessage tz (some T) (.obj fs) = .ok false) ∧
    (∀ j, fs.reverse.lookup "created_at" = some j → j.truthy = false →
      skipMessage tz (some T) (.obj fs) = .ok false) ∧
    (∀ msg rest extract, skipMessage tz (some T) msg = .ok true →
      scanEmails tz (some T) extract (msg :: rest) =
        scanEmails tz (some T) extract rest) ∧
    (∀ msg rest extract b, skipMessage tz (some T) msg = .ok false →
      buildBlob msg = .ok b →
      scanEmails tz (some T) extract (msg :: rest) =
        (if truthyStr (extract b) then .ok (extract b)
         else scanEmails tz (some T) extract rest)) := by
  refine ⟨?_, ?_, ?_, ?_, ?_, ?_⟩
  · intro j t hl hj hp
    unfold skipMessage getField
    dsimp only
    rw [hl]
    simp [hj, hp]
  · intro j hl hj hp
    unfold skipMessage getField
    dsimp only
    rw [hl]
    simp [hj, hp]
  · intro hl
    unfold skipMessage getField
    dsimp only
    rw [hl]
  · intro j hl hj
    unfold skipMessage getField
    dsimp only
    rw [hl]
    simp [hj]
  · intro msg rest extract h
    show (match skipMessage tz (some T) msg with
      | Except.error e => Except.error e
      | Except.ok true => scanEmails tz (some T) extract rest
      | Except.ok false =>
        match buildBlob msg with
        | Except.error e => Except.error e
        | Except.ok blob =>
          let code := extract blob
          if truthyStr code then Except.ok code
          else scanEmails tz (some T) extract rest) = _
    rw [h]
  · intro msg rest extract b h hb
    show (match skipMessage tz (some T) msg with
      | Except.error e => Except.error e
      | Except.ok true => scanEmails tz (some T) extract rest
      | Except.ok false =>
        match buildBlob msg with
        | Except.error e => Except.error e
        | Except.ok blob =>
          let code := extract blob
          if truthyStr code then Except.ok code
          else scanEmails tz (some T) extract rest) = _
    rw [h, hb]

/-- C3 witness, with `tz = 0` (UTC host) and
`since_time = 1700000000` = 2023-11-14T22:13:20Z: an epoch message one
second earlier is skipped; an ISO-8601 `Z`-suffixed message one second
later is scanned; an unparseable `created_at` is kept. -/
theorem since_filter_strict_witness :
    ([(("created_at" : String), Json.num 1699999999)].reverse.lookup "created_at" =
        some (Json.num 1699999999) ∧
      (Json.num 1699999999).truthy = true ∧
      parseCreated 0 (.num 1699999999) = some 1699999999 ∧
      skipMessage 0 (some 1700000000) (.obj [("created_at", .num 1699999999)]) =
        .ok true) ∧
    ([(("created_at" : String), Json.str "2023-11-14T22:13:21Z")].reverse.lookup
        "created_at" = some (Json.str "2023-11-14T22:13:21Z") ∧
      (Json.str "2023-11-14T22:13:21Z").truthy = true ∧
      parseCreated 0 (.str "2023-11-14T22:13:21Z") = some 1700000001 ∧
      skipMessage 0 (some 1700000000)
        (.obj [("created_at", .str "2023-11-14T22:13:21Z")]) = .ok false) ∧
    ([(("created_at" : String), Json.str "not-a-date")].reverse.lookup "created_at" =
        some (Json.str "not-a-date") ∧
      (Json.str "not-a-date").truthy = true ∧
      parseCreated 0 (.str "not-a-date") = none ∧
      skipMessage 0 (some 1700000000) (.obj [("created_at", .str "not-a-date")]) =
        .ok false) := by
  refine ⟨⟨rfl, rfl, by decide, ?_⟩, ⟨rfl, rfl, by decide, ?_⟩,
    ⟨rfl, rfl, by decide, ?_⟩⟩
  · exact (since_filter_strict 0 1700000000 _).1 (.num 1699999999) 1699999999
      rfl rfl (by decide)
  · exact (since_filter_strict 0 1700000000 _).1 (.str "2023-11-14T22:13:21Z")
      1700000001 rfl rfl (by decide)
  · exact (since_filter_strict 0 1700000000 _).2.1 (.str "not-a-date")
      rfl rfl (by decide)

/-- C4: for a 200 response whose body is an array of messages each of
whose blob construction succeeds, `fetch_verification_code` returns
exactly the spec-side result: the first non-empty code that the
external extractor finds on the space-joined subject/text/html/preview
blobs, in message iteration order, and `none` when no message yields
one. -/
theorem fetch_returns_first_code (email : Option Json) (tz : Int)
    (extract : String → Option String) (msgs : List Json)
    (he : truthyOpt email = true)
    (hok : ∀ m ∈ msgs, ∃ b, buildBlob m = Except.ok b) :
    fetch_verification_code email none tz extract (.ok ⟨200, .json (.arr msgs)⟩) =
      .ok ⟨specFirstCode extract msgs, true⟩ := by
  have hft : fetchTry tz none extract (.ok ⟨200, .json (.arr msgs)⟩) =
      .ok (specFirstCode extract msgs) := by
    unfold fetchTry
    dsimp only
    rw [if_neg (by decide), if_neg (by decide)]
    show (if msgs.isEmpty = true then Except.ok none
          else scanEmails tz none extract msgs) = _
    cases msgs with
    | nil => rfl
    | cons m rest =>
      rw [if_neg (by simp)]
      exact scanEmails_no_since tz extract (m :: rest) hok
  unfold fetch_verification_code
  rw [if_neg (by simp [he]), hft]

/-- Concrete two-message list for the C4 witness: the first message's
blob contains no code, the second one's does. -/
def w4m1 : Json := .obj [("subject", .str "A nothing")]

def w4m2 : Json := .obj [("subject", .str "B has code 654321")]

/-- A concrete extractor recognising only the second witness blob. -/
def w4extract : String → Option String :=
  fun s => if s = "B has code 654321   " then some "654321" else none

/-- C4 witness: with the first message yielding no code and the second
yielding `"654321"`, the second message's code is returned. -/
theorem fetch_returns_first_code_witness :
    truthyOpt (some (.str "a@b")) = true ∧
    (∀ m ∈ [w4m1, w4m2], ∃ b, buildBlob m = Except.ok b) ∧
    fetch_verification_code (some (.str "a@b")) none 0 w4extract
        (.ok ⟨200, .json (.arr [w4m1, w4m2])⟩) =
      .ok ⟨some "654321", true⟩ := by
  have h2 : ∀ m ∈ [w4m1, w4m2], ∃ b, buildBlob m = Except.ok b := by
    intro m hm
    simp only [List.mem_cons, List.not_mem_nil, or_false] at hm
    rcases hm with rfl | rfl
    · exact ⟨_, rfl⟩
    · exact ⟨_, rfl⟩
  refine ⟨rfl, h2, ?_⟩
  rw [fetch_returns_first_code (some (.str "a@b")) 0 w4extract [w4m1, w4m2] rfl h2]
  rfl

/-- C7: with the stored mailbox unset (`None`) or empty (`""`),
`fetch_verification_code` returns `None` immediately, without raising
and without issuing any HTTP request (`requested = false`). -/
theorem fetch_unset_mailbox (since : Option Int) (tz : Int)
    (extract : String → Option String) (resp : RequestResult) :
    fetch_verification_code none since tz extract resp = .ok ⟨none, false⟩ ∧
    fetch_verification_code (some (.str "")) since tz extract resp =
      .ok ⟨none, false⟩ :=
  ⟨rfl, rfl⟩

/-- C8: a 200 message-list response whose body is not a JSON array
(object, null, malformed, or empty body) makes
`fetch_verification_code` return `None` without raising; an empty
array also returns `None` as a normal no-code outcome. -/
theorem fetch_non_array_body (email : Option Json) (since : Option Int)
    (tz : Int) (extract : String → Option String)
    (he : truthyOpt email = true) :
    (∀ fs, fetch_verification_code email since tz extract
        (.ok ⟨200, .json (.obj fs)⟩) = .ok ⟨none, true⟩) ∧
    (fetch_verification_code email since tz extract (.ok ⟨200, .json .null⟩) =
      .ok ⟨none, true⟩) ∧
    (fetch_verification_code email since tz extract (.ok ⟨200, .malformed⟩) =
      .ok ⟨none, true⟩) ∧
    (fetch_verification_code email since tz extract (.ok ⟨200, .empty⟩) =
      .ok ⟨none, true⟩) ∧
    (fetch_verification_code email since tz extract (.ok ⟨200, .json (.arr [])⟩) =
      .ok ⟨none, true⟩) := by
  refine ⟨fun fs => ?_, ?_, ?_, ?_, ?_⟩ <;>
    · unfold fetch_verification_code
      rw [if_neg (by simp [he])]
      rfl

/-- C8 witness: the five shapes at a concrete client state. -/
theorem fetch_non_array_body_witness :
    truthyOpt (some (.str "a@b")) = true ∧
    (fetch_verification_code (some (.str "a@b")) none 0 (fun _ => none)
        (.ok ⟨200, .json (.obj [("x", .num 1)])⟩) = .ok ⟨none, true⟩) ∧
    (fetch_verification_code (some (.str "a@b")) none 0 (fun _ => none)
        (.ok ⟨200, .json .null⟩) = .ok ⟨none, true⟩) ∧
    (fetch_verification_code (some (.str "a@b")) none 0 (fun _ => none)
        (.ok ⟨200, .malformed⟩) = .ok ⟨none, true⟩) ∧
    (fetch_verification_code (some (.str "a@b")) none 0 (fun _ => none)
        (.ok ⟨200, .empty⟩) = .ok ⟨none, true⟩) ∧
    (fetch_verification_code (some (.str "a@b")) none 0 (fun _ => none)
        (.ok ⟨200, .json (.arr [])⟩) = .ok ⟨none, true⟩) :=
  ⟨rfl,
    (fetch_non_array_body (some (.str "a@b")) none 0 (fun _ => none) rfl).1
      [("x", .num 1)],
    (fetch_non_array_body (some (.str "a@b")) none 0 (fun _ => none) rfl).2.1,
    (fetch_non_array_body (some (.str "a@b")) none 0 (fun _ => none) rfl).2.2.1,
    (fetch_non_array_body (some (.str "a@b")) none 0 (fun _ => none) rfl).2.2.2.1,
    (fetch_non_array_body (some (.str "a@b")) none 0 (fun _ => none) rfl).2.2.2.2⟩

/-- C9: `_get_domain` returns the first entry of the JSON array on a
200 response with a non-empty array, and `""` on every failure —
non-200 status, non-array body, empty array, malformed or empty body,
or a transport error — never raising to its caller. -/
theorem get_domain_first_or_empty :
    (∀ x rest, _get_domain (.ok ⟨200, .json (.arr (x :: rest))⟩) = .ok x) ∧
    (∀ st bd, st ≠ 200 → _get_domain (.ok ⟨st, bd⟩) = .ok (.str "")) ∧
    (∀ fs, _get_domain (.ok ⟨200, .json (.obj fs)⟩) = .ok (.str "")) ∧
    (_get_domain (.ok ⟨200, .json .null⟩) = .ok (.str "")) ∧
    (_get_domain (.ok ⟨200, .malformed⟩) = .ok (.str "")) ∧
    (_get_domain (.ok ⟨200, .empty⟩) = .ok (.str "")) ∧
    (_get_domain (.ok ⟨200, .json (.arr [])⟩) = .ok (.str "")) ∧
    (∀ e, _get_domain (.error e) = .ok (.str "")) ∧
    (∀ resp, ∃ v, _get_domain resp = .ok v) := by
  refine ⟨fun x rest => rfl, ?_, fun fs => rfl, rfl, rfl, rfl, rfl,
    fun e => rfl, ?_⟩
  · intro st bd hst
    unfold _get_domain getDomainTry
    dsimp only
    rw [if_neg hst]
  · intro resp
    rcases hr : getDomainTry resp with e | x
    · exact ⟨_, by unfold _get_domain; rw [hr]⟩
    · rcases x with _ | v
      · exact ⟨_, by unfold _get_domain; rw [hr]⟩
      · exact ⟨_, by unfold _get_domain; rw [hr]⟩

/-- C9 witness: first entry of a two-domain array; `""` on a 500
status. -/
theorem get_domain_first_or_empty_witness :
    (_get_domain (.ok ⟨200, .json (.arr [.str "mail.example", .str "b.example"])⟩) =
      .ok (.str "mail.example")) ∧
    ((500 : Nat) ≠ 200) ∧
    (_get_domain (.ok ⟨500, .json (.arr [.str "mail.example"])⟩) = .ok (.str "")) ∧
    (_get_domain (.error .network) = .ok (.str "")) :=
  ⟨get_domain_first_or_empty.1 (.str "mail.example") [.str "b.example"],
    by decide,
    get_domain_first_or_empty.2.1 500 (.json (.arr [.str "mail.example"]))
      (by decide),
    get_domain_first_or_empty.2.2.2.2.2.2.2.1 .network⟩

end Freemail
